import Mathlib

/-!
# Verification of the contact-form Netlify function

Shallow embedding of `netlify/functions/contacto.js`: the request handler
(`exports.handler`), the email dispatcher (`sendEmail`) and the HTML escaper
(`escapeHtml`), together with theorems settling the specification claims.

Modelling choices:
* `JSON.parse(event.body)` followed by destructuring of `name`, `email`,
  `message` is modelled as `Event.body : Except String ParsedBody`, where the
  `.error` case stands for a thrown parse/destructuring exception (its string
  is the exception message) and absent fields are `none`.
* The network is modelled by two `SendOutcome` parameters, one per outbound
  call in program order: each is either a provider HTTP response
  (status code and raw body) or a transport-level error.  `sendEmail` maps an
  outcome to `Except String Bool` exactly as the source resolves/rejects its
  promise.
* The handler returns, besides the HTTP response, the list of outbound email
  calls it actually attempted, in order, so that claims about which sends
  happen are statable.
* A response object with no `headers` key (the 405 return) has
  `headers = none`.
-/

namespace Contacto

/-- The character class `\s` of JavaScript regular expressions
(ECMAScript WhiteSpace and LineTerminator code points). -/
def isJsWhitespace (c : Char) : Bool :=
  c = ' ' || c = '\t' || c = '\n' || c = '\r' || c = '\x0b' || c = '\x0c'
  || c = '\u00a0' || c = '\u1680'
  || (0x2000 ≤ c.toNat && c.toNat ≤ 0x200a)
  || c = '\u2028' || c = '\u2029' || c = '\u202f' || c = '\u205f'
  || c = '\u3000' || c = '\ufeff'

/-- The character class `[^\s@]` of the email regular expression on line 55. -/
def okChar (c : Char) : Bool :=
  !isJsWhitespace c && c ≠ '@'

/-- Split a character list at its first `'@'`, returning the (at-free) part
before it and everything after it; `none` when there is no `'@'`.
Because `[^\s@]` excludes `'@'`, the `'@'` consumed by the regex is
necessarily the first one of the string. -/
def splitAtAt : List Char → Option (List Char × List Char)
  | [] => none
  | c :: cs =>
    if c = '@' then some ([], cs)
    else
      match splitAtAt cs with
      | none => none
      | some (a, b) => some (c :: a, b)

/-- Predicate `dotBeforeEnd l`: true iff `l` contains a `'.'` with at least one
character after it (`l = m ++ '.' :: r` with `r ≠ []`). -/
def dotBeforeEnd : List Char → Bool
  | [] => false
  | c :: cs => (c = '.' && !cs.isEmpty) || dotBeforeEnd cs

/-- Predicate `hasInteriorDot l`: true iff `l = m ++ '.' :: r` with `m ≠ []` and
`r ≠ []`: the `'.'` demanded by `[^\s@]+\.[^\s@]+` between two nonempty
groups. -/
def hasInteriorDot : List Char → Bool
  | [] => false
  | _ :: cs => dotBeforeEnd cs

/-- The test `emailRegex.test(email)` for `emailRegex = /^[^\s@]+@[^\s@]+\.[^\s@]+$/`
(line 55): a nonempty `[^\s@]+` local part, `'@'`, then a domain part made of
`[^\s@]` characters containing a `'.'` preceded and followed by at least one
such character. -/
def emailRegexTest (s : String) : Bool :=
  match splitAtAt s.data with
  | none => false
  | some (a, b) =>
    !a.isEmpty && a.all okChar && b.all okChar && hasInteriorDot b

/-- The pattern of the email regular expression stated declaratively, the way
the specification words it: one or more non-whitespace/non-`@` characters,
then `@`, then one or more non-whitespace/non-`@` characters, then `.`, then
one or more non-whitespace/non-`@` characters. -/
def matchesEmailPattern (s : String) : Prop :=
  ∃ a m r : List Char,
    s.data = a ++ '@' :: (m ++ '.' :: r) ∧
    a ≠ [] ∧ m ≠ [] ∧ r ≠ [] ∧
    a.all okChar = true ∧ m.all okChar = true ∧ r.all okChar = true

/-- The replacement performed for one character matched by `/[&<>"']/g`
(lines 276-283): the five mapped characters go to their entities, every other
character is left as itself. -/
def escapeChar (c : Char) : String :=
  if c = '&' then "&amp;"
  else if c = '<' then "&lt;"
  else if c = '>' then "&gt;"
  else if c = '"' then "&quot;"
  else if c = '\'' then "&#039;"
  else String.singleton c

/-- Character-by-character global replacement, as `text.replace(/[&<>"']/g, ...)`
performs it. -/
def escapeList : List Char → String
  | [] => ""
  | c :: cs => escapeChar c ++ escapeList cs

/-- Function `escapeHtml` (lines 275-284). -/
def escapeHtml (text : String) : String :=
  escapeList text.data

/-- The destructured form fields `{ name, email, message }` of the parsed
JSON body; a field absent from the JSON object is `none`. -/
structure ParsedBody where
  name : Option String
  email : Option String
  message : Option String
deriving DecidableEq, Repr

/-- JavaScript falsiness of a (possibly absent) string value: `!x` is true
for `undefined` and for the empty string.  Used both by the field validation
at line 43 and by the credential check `if (!RESEND_API_KEY)` at line 70. -/
def falsy : Option String → Bool
  | none => true
  | some s => s = ""

/-- The inbound event: the HTTP method and the outcome of
`JSON.parse(event.body)` with destructuring. -/
structure Event where
  httpMethod : String
  body : Except String ParsedBody
deriving Repr

/-- Process environment: `RESEND_API_KEY` and `NODE_ENV`. -/
structure Env where
  resendApiKey : Option String
  nodeEnv : Option String
deriving DecidableEq, Repr

/-- Result of one outbound HTTPS request to the provider: either an HTTP
response (status code, accumulated body) or a transport-level error with its
message. -/
inductive SendOutcome where
  | response (statusCode : Nat) (data : String)
  | transportError (msg : String)
deriving DecidableEq, Repr

/-- Function `sendEmail` (lines 228-270), as the settlement of its promise: a 2xx
response resolves to `true`; a non-2xx response rejects with
`Resend API error: <status> - <body>`; a transport error rejects with the
error itself. -/
def sendEmail : SendOutcome → Except String Bool
  | .response code data =>
    if 200 ≤ code && code < 300 then .ok true
    else .error ("Resend API error: " ++ toString code ++ " - " ++ data)
  | .transportError msg => .error msg

/-- A response body: either a raw string (the empty preflight body) or
`JSON.stringify` of an object with the keys the handler uses
(`error`, `success`, `message`, `details`; `none` = key absent). -/
inductive RespBody where
  | raw (s : String)
  | obj (error : Option String) (success : Option Bool)
      (message : Option String) (details : Option String)
deriving DecidableEq, Repr

/-- A handler response: status code, optional `headers` object (the 405
return carries none), body. -/
structure Response where
  statusCode : Nat
  headers : Option (List (String × String))
  body : RespBody
deriving DecidableEq, Repr

/-- The CORS headers object (lines 21-26). -/
def corsHeaders : List (String × String) :=
  [("Access-Control-Allow-Origin", "*"),
   ("Access-Control-Allow-Headers", "Content-Type"),
   ("Access-Control-Allow-Methods", "POST, OPTIONS"),
   ("Content-Type", "application/json")]

/-- One attempted outbound email call, by its addressing fields. -/
structure EmailCall where
  fromAddr : String
  toAddr : String
  replyTo : String
  subject : String
deriving DecidableEq, Repr

/-- The operator-notification email (lines 83-129); the subject interpolates
the raw `name`, the reply-to is the submitter's email. -/
def notificationCall (name email : String) : EmailCall :=
  { fromAddr := "AutoAIUY <no-reply@autoaiuy.com>"
    toAddr := "contacto@autoaiuy.com"
    replyTo := email
    subject := "Nueva consulta de " ++ name }

/-- The auto-confirmation email to the submitter (lines 132-193). -/
def confirmationCall (email : String) : EmailCall :=
  { fromAddr := "AutoAIUY <no-reply@autoaiuy.com>"
    toAddr := email
    replyTo := "contacto@autoaiuy.com"
    subject := "✅ Recibimos tu consulta - AutoAIUY" }

/-- The catch-all error response (lines 210-222): 500, CORS headers, generic
error text, `details` echoing the exception message only when
`NODE_ENV === 'development'`. -/
def catchResponse (env : Env) (msg : String) : Response :=
  { statusCode := 500
    headers := some corsHeaders
    body := .obj (some "Error al procesar la solicitud") (some false) none
      (if env.nodeEnv = some "development" then some msg else none) }

/-- The handler `exports.handler` (lines 11-223).  Returns the response together with the
list of outbound email calls attempted, in program order.  The method check
at line 13 precedes both the definition of the CORS headers and the
`OPTIONS` preflight check at line 29, which is therefore kept, faithfully, as
dead code.  The credential check `if (!RESEND_API_KEY)` at line 70 fires on a
falsy key — unset or the empty string — hence the `falsy` test here. -/
def handler (env : Env) (o1 o2 : SendOutcome) (event : Event) :
    Response × List EmailCall :=
  if event.httpMethod ≠ "POST" then
    ({ statusCode := 405, headers := none,
       body := .obj (some "Método no permitido") none none none }, [])
  else if event.httpMethod = "OPTIONS" then
    ({ statusCode := 200, headers := some corsHeaders, body := .raw "" }, [])
  else
    match event.body with
    | .error msg => (catchResponse env msg, [])
    | .ok data =>
      if falsy data.name || falsy data.email || falsy data.message then
        ({ statusCode := 400, headers := some corsHeaders,
           body := .obj (some "Faltan campos requeridos") (some false) none none }, [])
      else if !emailRegexTest (data.email.getD "") then
        ({ statusCode := 400, headers := some corsHeaders,
           body := .obj (some "Email inválido") (some false) none none }, [])
      else
        if falsy env.resendApiKey then
          ({ statusCode := 500, headers := some corsHeaders,
             body := .obj (some "Configuración del servidor incompleta") (some false) none none }, [])
        else
          match sendEmail o1 with
          | .error msg =>
            (catchResponse env msg,
             [notificationCall (data.name.getD "") (data.email.getD "")])
          | .ok nSent =>
            match sendEmail o2 with
            | .error msg =>
              (catchResponse env msg,
               [notificationCall (data.name.getD "") (data.email.getD ""),
                confirmationCall (data.email.getD "")])
            | .ok cSent =>
              if !nSent || !cSent then
                (catchResponse env "Error al enviar uno o ambos emails",
                 [notificationCall (data.name.getD "") (data.email.getD ""),
                  confirmationCall (data.email.getD "")])
              else
                ({ statusCode := 200, headers := some corsHeaders,
                   body := .obj none (some true) (some "Emails enviados correctamente") none },
                 [notificationCall (data.name.getD "") (data.email.getD ""),
                  confirmationCall (data.email.getD "")])


/-- Field accessor: the `success` key of a JSON response body, when present. -/
def RespBody.successField : RespBody → Option Bool
  | .raw _ => none
  | .obj _ s _ _ => s

/-- Field accessor: the `error` key of a JSON response body, when present. -/
def RespBody.errorField : RespBody → Option String
  | .raw _ => none
  | .obj e _ _ _ => e

/-- A response carries the full CORS header set iff it has a `headers` object
containing all four pairs of `corsHeaders`. -/
def carriesCors (r : Response) : Bool :=
  match r.headers with
  | none => false
  | some hs => corsHeaders.all (fun p => hs.contains p)

/-- Characters that can open or close an HTML tag or break out of a quoted
attribute value. -/
def htmlSafeChar (c : Char) : Bool :=
  !(c = '<' || c = '>' || c = '"' || c = '\'')

section RegexLemmas

theorem splitAtAt_eq_some (l a b : List Char) (h : splitAtAt l = some (a, b)) :
    l = a ++ '@' :: b ∧ '@' ∉ a := by
  induction l generalizing a b with
  | nil => simp [splitAtAt] at h
  | cons c cs ih =>
    by_cases hc : c = '@'
    · subst hc
      rw [splitAtAt, if_pos rfl] at h
      obtain ⟨ha, hb⟩ : [] = a ∧ cs = b := by
        simpa using h
      subst ha; subst hb
      simp
    · rw [splitAtAt, if_neg hc] at h
      cases hsplit : splitAtAt cs with
      | none => rw [hsplit] at h; simp at h
      | some p =>
        obtain ⟨a', b'⟩ := p
        rw [hsplit] at h
        obtain ⟨ha, hb⟩ : c :: a' = a ∧ b' = b := by
          simpa using h
        subst ha; subst hb
        obtain ⟨hcs, hmem⟩ := ih a' b' hsplit
        refine ⟨by rw [hcs, List.cons_append], ?_⟩
        simp only [List.mem_cons, not_or]
        exact ⟨fun hx => hc hx.symm, hmem⟩

theorem splitAtAt_append (a b : List Char) (ha : '@' ∉ a) :
    splitAtAt (a ++ '@' :: b) = some (a, b) := by
  induction a with
  | nil => simp [splitAtAt]
  | cons c cs ih =>
    simp only [List.mem_cons, not_or] at ha
    rw [List.cons_append, splitAtAt, if_neg (fun h => ha.1 h.symm),
      ih ha.2]

theorem dotBeforeEnd_iff (l : List Char) :
    dotBeforeEnd l = true ↔ ∃ m r, l = m ++ '.' :: r ∧ r ≠ [] := by
  induction l with
  | nil =>
    constructor
    · intro h; simp [dotBeforeEnd] at h
    · rintro ⟨m, r, h, -⟩
      exact absurd h.symm (by simp)
  | cons c cs ih =>
    rw [dotBeforeEnd]
    simp only [Bool.or_eq_true, Bool.and_eq_true, decide_eq_true_eq,
      Bool.not_eq_true', List.isEmpty_eq_false]
    constructor
    · intro h
      rcases h with ⟨hc, hcs⟩ | h2
      · exact ⟨[], cs, by rw [List.nil_append, hc], hcs⟩
      · obtain ⟨m, r, hcs, hr⟩ := ih.mp h2
        exact ⟨c :: m, r, by rw [hcs, List.cons_append], hr⟩
    · rintro ⟨m, r, hl, hr⟩
      cases m with
      | nil =>
        simp only [List.nil_append, List.cons.injEq] at hl
        left
        refine ⟨hl.1, ?_⟩
        rw [hl.2]
        exact hr
      | cons d m' =>
        rw [List.cons_append] at hl
        simp only [List.cons.injEq] at hl
        right
        exact ih.mpr ⟨m', r, hl.2, hr⟩

theorem hasInteriorDot_iff (l : List Char) :
    hasInteriorDot l = true ↔ ∃ m r, l = m ++ '.' :: r ∧ m ≠ [] ∧ r ≠ [] := by
  cases l with
  | nil =>
    constructor
    · intro h; simp [hasInteriorDot] at h
    · rintro ⟨m, r, h, -, -⟩
      exact absurd h.symm (by simp)
  | cons c cs =>
    rw [hasInteriorDot, dotBeforeEnd_iff]
    constructor
    · rintro ⟨m, r, hcs, hr⟩
      exact ⟨c :: m, r, by rw [hcs, List.cons_append], by simp, hr⟩
    · rintro ⟨m, r, hl, hm, hr⟩
      cases m with
      | nil => exact absurd rfl hm
      | cons d m' =>
        rw [List.cons_append] at hl
        simp only [List.cons.injEq] at hl
        exact ⟨m', r, hl.2, hr⟩

theorem okChar_ne_at {c : Char} (h : okChar c = true) : c ≠ '@' := by
  simp only [okChar, Bool.and_eq_true, decide_eq_true_eq] at h
  exact h.2

theorem emailRegexTest_iff_matches (s : String) :
    emailRegexTest s = true ↔ matchesEmailPattern s := by
  constructor
  · intro h
    rw [emailRegexTest] at h
    cases hsplit : splitAtAt s.data with
    | none => rw [hsplit] at h; simp at h
    | some p =>
      obtain ⟨a, b⟩ := p
      rw [hsplit] at h
      simp only [Bool.and_eq_true, Bool.not_eq_true'] at h
      obtain ⟨⟨⟨hne, hok⟩, hbok⟩, hdot⟩ := h
      obtain ⟨hl, -⟩ := splitAtAt_eq_some _ _ _ hsplit
      obtain ⟨m, r, hb, hm, hr⟩ := (hasInteriorDot_iff b).mp hdot
      subst hb
      simp only [List.all_append, List.all_cons, Bool.and_eq_true] at hbok
      refine ⟨a, m, r, by rw [hl], ?_, hm, hr, hok, hbok.1, hbok.2.2⟩
      intro hnil
      rw [hnil] at hne
      simp at hne
  · rintro ⟨a, m, r, hs, ha, hm, hr, hao, hmo, hro⟩
    have hnotin : '@' ∉ a := by
      intro hmem
      exact okChar_ne_at (List.all_eq_true.mp hao _ hmem) rfl
    rw [emailRegexTest, hs, splitAtAt_append _ _ hnotin]
    simp only [Bool.and_eq_true, Bool.not_eq_true', List.all_append,
      List.all_cons]
    refine ⟨⟨⟨?_, hao⟩, ⟨hmo, ?_, hro⟩⟩, ?_⟩
    · cases a with
      | nil => exact absurd rfl ha
      | cons x xs => rfl
    · decide
    · exact (hasInteriorDot_iff _).mpr ⟨m, r, rfl, hm, hr⟩

end RegexLemmas

section EscapeLemmas

theorem escapeList_append (l₁ l₂ : List Char) :
    escapeList (l₁ ++ l₂) = escapeList l₁ ++ escapeList l₂ := by
  induction l₁ with
  | nil =>
    apply String.ext
    simp [escapeList, String.data_append]
  | cons c cs ih =>
    apply String.ext
    simp [escapeList, String.data_append, ih]

theorem escapeChar_safe (c : Char) : (escapeChar c).data.all htmlSafeChar = true := by
  rw [escapeChar]
  split_ifs with h1 h2 h3 h4 h5
  · decide
  · decide
  · decide
  · decide
  · decide
  · simp [String.singleton, htmlSafeChar, h2, h3, h4, h5]

theorem escapeList_all_safe (l : List Char) :
    (escapeList l).data.all htmlSafeChar = true := by
  induction l with
  | nil => rfl
  | cons c cs ih =>
    rw [escapeList]
    simp [String.data_append, List.all_append, escapeChar_safe c, ih]

theorem sendEmail_ok {o : SendOutcome} {b : Bool} (h : sendEmail o = .ok b) :
    b = true := by
  cases o with
  | response code data =>
    rw [sendEmail] at h
    split at h
    · cases h; rfl
    · cases h
  | transportError msg => cases h

end EscapeLemmas

section HandlerLemmas

theorem carriesCors_of_corsHeaders (r : Response) (h : r.headers = some corsHeaders) :
    carriesCors r = true := by
  rw [carriesCors, h]
  rfl

end HandlerLemmas

/-- C1 (code bug): the claim says an `OPTIONS` request receives an empty 200
with the full CORS header set, before any body parsing, and that only methods
other than `POST` and `OPTIONS` receive a 405.  The code contradicts this and
its own `// Handle preflight` comment: the wrong-method check at line 13
fires for any method other than `POST`, so every `OPTIONS` request receives
the 405 response (which carries no headers object at all) and the preflight
branch at lines 29-35 is unreachable. -/
theorem handler_options_request_gets_405 (env : Env) (o1 o2 : SendOutcome)
    (b : Except String ParsedBody) :
    handler env o1 o2 ⟨"OPTIONS", b⟩ =
      ({ statusCode := 405, headers := none,
         body := .obj (some "Método no permitido") none none none }, []) := rfl

/-- C2: for every `POST` request whose body parses to non-empty `name`,
`email` and `message` with the email matching the pattern, with the provider
credential present, and with both outbound sends resolving `true` (2xx
provider status), the handler returns status 200 with body
`{success: true, message: "Emails enviados correctamente"}`. -/
theorem handler_valid_submission_success (env : Env) (o1 o2 : SendOutcome)
    (ev : Event) (n e m key : String)
    (hm : ev.httpMethod = "POST")
    (hb : ev.body = .ok ⟨some n, some e, some m⟩)
    (hn : n ≠ "") (he : e ≠ "") (hmsg : m ≠ "")
    (hre : emailRegexTest e = true)
    (hk : env.resendApiKey = some key) (hke : key ≠ "")
    (h1 : sendEmail o1 = .ok true) (h2 : sendEmail o2 = .ok true) :
    (handler env o1 o2 ev).1 =
      { statusCode := 200, headers := some corsHeaders,
        body := .obj none (some true) (some "Emails enviados correctamente") none } := by
  simp [handler, hm, hb, falsy, hn, he, hmsg, hre, hk, hke, h1, h2]

theorem handler_valid_submission_success_witness :
    (handler ⟨some "key", none⟩ (.response 200 "") (.response 201 "")
      ⟨"POST", .ok ⟨some "Ana", some "ana@mail.com", some "hola"⟩⟩).1 =
      { statusCode := 200, headers := some corsHeaders,
        body := .obj none (some true) (some "Emails enviados correctamente") none } :=
  handler_valid_submission_success ⟨some "key", none⟩ (.response 200 "") (.response 201 "")
    ⟨"POST", .ok ⟨some "Ana", some "ana@mail.com", some "hola"⟩⟩
    "Ana" "ana@mail.com" "hola" "key" rfl rfl (by decide) (by decide) (by decide)
    rfl rfl (by decide) rfl rfl

theorem escapeHtml_singleton (c : Char) :
    escapeHtml (String.singleton c) = escapeChar c := by
  apply String.ext
  show (escapeChar c ++ "").data = (escapeChar c).data
  rw [String.data_append]
  exact List.append_nil _

theorem escapeHtml_append (s t : String) :
    escapeHtml (s ++ t) = escapeHtml s ++ escapeHtml t := by
  rw [escapeHtml, escapeHtml, escapeHtml, String.data_append, escapeList_append]

/-- C5: `escapeHtml` replaces exactly the five characters `& < > " '` with
`&amp; &lt; &gt; &quot; &#039;` respectively and leaves every other character
(including Unicode) unchanged: it acts character by character (it is a
homomorphism for concatenation), maps each of the five to its entity and
fixes every other single character; in particular it sends
`"<script>a&b</script>"` to `"&lt;script&gt;a&amp;b&lt;/script&gt;"` and
`"hello"` to itself. -/
theorem escapeHtml_replaces_exactly_the_five_chars :
    escapeHtml (String.singleton '&') = "&amp;" ∧
    escapeHtml (String.singleton '<') = "&lt;" ∧
    escapeHtml (String.singleton '>') = "&gt;" ∧
    escapeHtml (String.singleton '"') = "&quot;" ∧
    escapeHtml (String.singleton '\'') = "&#039;" ∧
    (∀ c : Char, c ≠ '&' → c ≠ '<' → c ≠ '>' → c ≠ '"' → c ≠ '\'' →
      escapeHtml (String.singleton c) = String.singleton c) ∧
    (∀ s t : String, escapeHtml (s ++ t) = escapeHtml s ++ escapeHtml t) ∧
    escapeHtml "<script>a&b</script>" = "&lt;script&gt;a&amp;b&lt;/script&gt;" ∧
    escapeHtml "hello" = "hello" := by
  refine ⟨by decide, by decide, by decide, by decide, by decide, ?_,
    escapeHtml_append, by decide, by decide⟩
  intro c h1 h2 h3 h4 h5
  rw [escapeHtml_singleton, escapeChar, if_neg h1, if_neg h2, if_neg h3,
    if_neg h4, if_neg h5]

theorem escapeHtml_replaces_exactly_the_five_chars_witness :
    escapeHtml (String.singleton 'é') = String.singleton 'é' :=
  escapeHtml_replaces_exactly_the_five_chars.2.2.2.2.2.1 'é'
    (by decide) (by decide) (by decide) (by decide) (by decide)

/-- C10: for every input string, the output of `escapeHtml` contains none of
the characters `< > " '`, so escaped text interpolated into the email HTML
can neither open or close a tag nor break out of an attribute value. -/
theorem escapeHtml_output_contains_no_markup_chars (s : String) :
    (escapeHtml s).data.all htmlSafeChar = true :=
  escapeList_all_safe s.data

/-- C3: for every valid submission (non-empty fields, matching email,
credential present), if either of the two outbound sends fails — that is, it
is not the case that both resolve `true` — the handler returns status 500
with `success: false` and the generic error message, and (the handler being a
total function) no unhandled exception escapes it. -/
theorem handler_send_failure_500 (env : Env) (o1 o2 : SendOutcome)
    (ev : Event) (n e m key : String)
    (hm : ev.httpMethod = "POST")
    (hb : ev.body = .ok ⟨some n, some e, some m⟩)
    (hn : n ≠ "") (he : e ≠ "") (hmsg : m ≠ "")
    (hre : emailRegexTest e = true)
    (hk : env.resendApiKey = some key) (hke : key ≠ "")
    (hf : ¬(sendEmail o1 = .ok true ∧ sendEmail o2 = .ok true)) :
    (handler env o1 o2 ev).1.statusCode = 500 ∧
    (handler env o1 o2 ev).1.body.successField = some false ∧
    (handler env o1 o2 ev).1.body.errorField =
      some "Error al procesar la solicitud" := by
  rcases h1 : sendEmail o1 with msg1 | b1
  · refine ⟨?_, ?_, ?_⟩ <;>
      simp [handler, hm, hb, falsy, hn, he, hmsg, hre, hk, hke, h1, catchResponse,
        RespBody.successField, RespBody.errorField]
  · have hb1 : b1 = true := sendEmail_ok h1
    subst hb1
    rcases h2 : sendEmail o2 with msg2 | b2
    · refine ⟨?_, ?_, ?_⟩ <;>
        simp [handler, hm, hb, falsy, hn, he, hmsg, hre, hk, hke, h1, h2,
          catchResponse, RespBody.successField, RespBody.errorField]
    · have hb2 : b2 = true := sendEmail_ok h2
      subst hb2
      exact absurd ⟨h1, h2⟩ hf

theorem handler_send_failure_500_witness :
    (handler ⟨some "key", none⟩ (.response 500 "boom") (.response 200 "")
      ⟨"POST", .ok ⟨some "Ana", some "ana@mail.com", some "hola"⟩⟩).1.statusCode = 500 ∧
    (handler ⟨some "key", none⟩ (.response 500 "boom") (.response 200 "")
      ⟨"POST", .ok ⟨some "Ana", some "ana@mail.com", some "hola"⟩⟩).1.body.successField
        = some false ∧
    (handler ⟨some "key", none⟩ (.response 500 "boom") (.response 200 "")
      ⟨"POST", .ok ⟨some "Ana", some "ana@mail.com", some "hola"⟩⟩).1.body.errorField
        = some "Error al procesar la solicitud" :=
  handler_send_failure_500 ⟨some "key", none⟩ (.response 500 "boom") (.response 200 "")
    ⟨"POST", .ok ⟨some "Ana", some "ana@mail.com", some "hola"⟩⟩
    "Ana" "ana@mail.com" "hola" "key" rfl rfl (by decide) (by decide) (by decide)
    rfl rfl (by decide) (by intro h; exact absurd h.1 (by simp [sendEmail]))

/-- C6: for every `POST` request whose parsed body is missing any of `name`,
`email`, `message`, or has any of them empty, the handler returns status 400
with `success: false`, and no outbound call is attempted. -/
theorem handler_missing_fields_400 (env : Env) (o1 o2 : SendOutcome)
    (ev : Event) (data : ParsedBody)
    (hm : ev.httpMethod = "POST") (hb : ev.body = .ok data)
    (hf : data.name = none ∨ data.name = some "" ∨ data.email = none ∨
      data.email = some "" ∨ data.message = none ∨ data.message = some "") :
    (handler env o1 o2 ev).1 =
      { statusCode := 400, headers := some corsHeaders,
        body := .obj (some "Faltan campos requeridos") (some false) none none } ∧
    (handler env o1 o2 ev).2 = [] := by
  have hcond : (falsy data.name || falsy data.email || falsy data.message) = true := by
    rcases hf with h | h | h | h | h | h <;> simp [falsy, h]
  constructor <;> simp [handler, hm, hb, hcond]

theorem handler_missing_fields_400_witness :
    (handler ⟨some "key", none⟩ (.response 200 "") (.response 200 "")
      ⟨"POST", .ok ⟨some "Ana", none, some "hola"⟩⟩).1 =
      { statusCode := 400, headers := some corsHeaders,
        body := .obj (some "Faltan campos requeridos") (some false) none none } ∧
    (handler ⟨some "key", none⟩ (.response 200 "") (.response 200 "")
      ⟨"POST", .ok ⟨some "Ana", none, some "hola"⟩⟩).2 = [] :=
  handler_missing_fields_400 ⟨some "key", none⟩ (.response 200 "") (.response 200 "")
    ⟨"POST", .ok ⟨some "Ana", none, some "hola"⟩⟩ ⟨some "Ana", none, some "hola"⟩
    rfl rfl (Or.inr (Or.inr (Or.inl rfl)))

/-- C7: for every `POST` request with present, non-empty fields, the handler
returns status 400 exactly when the email does not match the pattern: one or
more non-whitespace/non-`@` characters, then `@`, then one or more such
characters, then `.`, then one or more such characters
(`matchesEmailPattern`). -/
theorem handler_400_iff_email_pattern_mismatch (env : Env) (o1 o2 : SendOutcome)
    (ev : Event) (n e m : String)
    (hm : ev.httpMethod = "POST")
    (hb : ev.body = .ok ⟨some n, some e, some m⟩)
    (hn : n ≠ "") (he : e ≠ "") (hmsg : m ≠ "") :
    ((handler env o1 o2 ev).1.statusCode = 400 ↔ ¬ matchesEmailPattern e) := by
  rw [← emailRegexTest_iff_matches]
  by_cases hre : emailRegexTest e = true
  · simp only [hre, not_true, iff_false]
    rcases hk : env.resendApiKey with _ | key
    · simp [handler, hm, hb, falsy, hn, he, hmsg, hre, hk]
    · by_cases hke : key = ""
      · subst hke
        simp [handler, hm, hb, falsy, hn, he, hmsg, hre, hk]
      · rcases h1 : sendEmail o1 with msg1 | b1
        · simp [handler, hm, hb, falsy, hn, he, hmsg, hre, hk, hke, h1,
            catchResponse]
        · have hb1 : b1 = true := sendEmail_ok h1
          subst hb1
          rcases h2 : sendEmail o2 with msg2 | b2
          · simp [handler, hm, hb, falsy, hn, he, hmsg, hre, hk, hke, h1, h2,
              catchResponse]
          · have hb2 : b2 = true := sendEmail_ok h2
            subst hb2
            simp [handler, hm, hb, falsy, hn, he, hmsg, hre, hk, hke, h1, h2]
  · rw [Bool.not_eq_true] at hre
    simp [handler, hm, hb, falsy, hn, he, hmsg, hre]

theorem handler_400_iff_email_pattern_mismatch_witness :
    ((handler ⟨some "key", none⟩ (.response 200 "") (.response 200 "")
      ⟨"POST", .ok ⟨some "Ana", some "not-an-email", some "hola"⟩⟩).1.statusCode = 400 ↔
      ¬ matchesEmailPattern "not-an-email") :=
  handler_400_iff_email_pattern_mismatch ⟨some "key", none⟩ (.response 200 "")
    (.response 200 "") ⟨"POST", .ok ⟨some "Ana", some "not-an-email", some "hola"⟩⟩
    "Ana" "not-an-email" "hola" rfl rfl (by decide) (by decide) (by decide)

/-- C4 (counterexample): the claim says that with the credential absent every
`POST` request gets a 500, regardless of submission validity.  The code
validates first: with `RESEND_API_KEY` unset and an empty `name`, the
response status is 400, not 500. -/
theorem handler_missing_key_invalid_submission_400 :
    (handler ⟨none, none⟩ (.response 200 "") (.response 200 "")
      ⟨"POST", .ok ⟨some "", some "ana@mail.com", some "hola"⟩⟩).1.statusCode = 400 ∧
    ¬((handler ⟨none, none⟩ (.response 200 "") (.response 200 "")
      ⟨"POST", .ok ⟨some "", some "ana@mail.com", some "hola"⟩⟩).1.statusCode = 500) :=
  ⟨rfl, by decide⟩

/-- C4 (amended): with the provider credential absent the handler never
attempts an outbound call, whatever the request; and for every `POST`
request whose body parses to a valid submission (present, non-empty fields
and matching email) it returns status 500 with the generic configuration
message.  (An invalid submission is instead rejected with 400 by the earlier
validation, credential or not.) -/
theorem handler_missing_key_amended (env : Env) (o1 o2 : SendOutcome)
    (ev : Event) (hk : env.resendApiKey = none) :
    (handler env o1 o2 ev).2 = [] ∧
    (∀ n e m : String, ev.httpMethod = "POST" →
      ev.body = .ok ⟨some n, some e, some m⟩ →
      n ≠ "" → e ≠ "" → m ≠ "" → emailRegexTest e = true →
      (handler env o1 o2 ev).1 =
        { statusCode := 500, headers := some corsHeaders,
          body := .obj (some "Configuración del servidor incompleta")
            (some false) none none }) := by
  constructor
  · obtain ⟨method, body⟩ := ev
    simp only [handler, hk]
    repeat first | rfl | split
  · intro n e m hm hb hn he hmsg hre
    simp [handler, hm, hb, falsy, hn, he, hmsg, hre, hk]

theorem handler_missing_key_amended_witness :
    (handler ⟨none, none⟩ (.response 200 "") (.response 200 "")
      ⟨"POST", .ok ⟨some "Ana", some "ana@mail.com", some "hola"⟩⟩).2 = [] ∧
    (handler ⟨none, none⟩ (.response 200 "") (.response 200 "")
      ⟨"POST", .ok ⟨some "Ana", some "ana@mail.com", some "hola"⟩⟩).1 =
      { statusCode := 500, headers := some corsHeaders,
        body := .obj (some "Configuración del servidor incompleta")
          (some false) none none } := by
  have h := handler_missing_key_amended ⟨none, none⟩ (.response 200 "")
    (.response 200 "")
    ⟨"POST", .ok ⟨some "Ana", some "ana@mail.com", some "hola"⟩⟩ rfl
  exact ⟨h.1, h.2 "Ana" "ana@mail.com" "hola" rfl rfl (by decide) (by decide)
    (by decide) rfl⟩

/-- C8 (counterexample): the claim says every response, including the 405 for
wrong-method requests, carries the four CORS/content-type headers.  The 405
return at lines 14-17 has no `headers` object at all: a `GET` request
receives a 405 that carries none of them. -/
theorem handler_405_response_lacks_cors_headers :
    (handler ⟨none, none⟩ (.response 200 "") (.response 200 "")
      ⟨"GET", .ok ⟨none, none, none⟩⟩).1.statusCode = 405 ∧
    carriesCors (handler ⟨none, none⟩ (.response 200 "") (.response 200 "")
      ⟨"GET", .ok ⟨none, none, none⟩⟩).1 = false :=
  ⟨rfl, rfl⟩

/-- C8 (amended): every response the handler produces for a request with
method `POST` carries the headers `Access-Control-Allow-Origin: *`,
`Access-Control-Allow-Headers: Content-Type`,
`Access-Control-Allow-Methods: POST, OPTIONS` and
`Content-Type: application/json`; the 405 response for any other method
carries no headers. -/
theorem handler_post_responses_carry_cors_headers (env : Env)
    (o1 o2 : SendOutcome) (ev : Event) (hm : ev.httpMethod = "POST") :
    carriesCors (handler env o1 o2 ev).1 = true := by
  obtain ⟨method, body⟩ := ev
  dsimp only at hm
  subst hm
  rw [handler.eq_def]
  dsimp only
  rw [if_neg (by decide), if_neg (by decide)]
  rcases body with msg | data
  · exact carriesCors_of_corsHeaders _ rfl
  · dsimp only
    repeat first | exact carriesCors_of_corsHeaders _ rfl | split

theorem handler_post_responses_carry_cors_headers_witness :
    carriesCors (handler ⟨none, none⟩ (.response 200 "") (.response 200 "")
      ⟨"POST", .ok ⟨none, none, none⟩⟩).1 = true :=
  handler_post_responses_carry_cors_headers ⟨none, none⟩ (.response 200 "")
    (.response 200 "") ⟨"POST", .ok ⟨none, none, none⟩⟩ rfl

/-- C9: for every valid submission with the credential present, if the first
outbound send (the operator notification) rejects, the only call attempted is
the notification — the confirmation send is never invoked — and the response
is a 500; and the two sends are not atomic: when the first resolves `true`
and the second rejects, both calls were attempted (so one email was already
sent) and the response is still a 500. -/
theorem handler_second_send_not_invoked_on_first_failure (env : Env)
    (o1 o2 : SendOutcome) (ev : Event) (n e m key : String)
    (hm : ev.httpMethod = "POST")
    (hb : ev.body = .ok ⟨some n, some e, some m⟩)
    (hn : n ≠ "") (he : e ≠ "") (hmsg : m ≠ "")
    (hre : emailRegexTest e = true)
    (hk : env.resendApiKey = some key) (hke : key ≠ "") :
    ((∃ msg, sendEmail o1 = .error msg) →
      (handler env o1 o2 ev).2 = [notificationCall n e] ∧
      (handler env o1 o2 ev).1.statusCode = 500) ∧
    (sendEmail o1 = .ok true → (∃ msg, sendEmail o2 = .error msg) →
      (handler env o1 o2 ev).2 = [notificationCall n e, confirmationCall e] ∧
      (handler env o1 o2 ev).1.statusCode = 500) := by
  constructor
  · rintro ⟨msg, h1⟩
    constructor <;>
      simp [handler, hm, hb, falsy, hn, he, hmsg, hre, hk, hke, h1, catchResponse]
  · rintro h1 ⟨msg, h2⟩
    constructor <;>
      simp [handler, hm, hb, falsy, hn, he, hmsg, hre, hk, hke, h1, h2, catchResponse]

theorem handler_second_send_not_invoked_on_first_failure_witness :
    (handler ⟨some "key", none⟩ (.transportError "ECONNRESET") (.response 200 "")
      ⟨"POST", .ok ⟨some "Ana", some "ana@mail.com", some "hola"⟩⟩).2 =
      [notificationCall "Ana" "ana@mail.com"] ∧
    (handler ⟨some "key", none⟩ (.transportError "ECONNRESET") (.response 200 "")
      ⟨"POST", .ok ⟨some "Ana", some "ana@mail.com", some "hola"⟩⟩).1.statusCode = 500 :=
  (handler_second_send_not_invoked_on_first_failure ⟨some "key", none⟩
    (.transportError "ECONNRESET") (.response 200 "")
    ⟨"POST", .ok ⟨some "Ana", some "ana@mail.com", some "hola"⟩⟩
    "Ana" "ana@mail.com" "hola" "key" rfl rfl (by decide) (by decide) (by decide)
    rfl rfl (by decide)).1 ⟨"ECONNRESET", rfl⟩

end Contacto
